import Mathlib

/-!
# PhysioTrack — verification of the Local Store, Signature Capture Widget,
# Session Form and Text Summary Generator

Shallow embedding of the repository's core logic:

* `src/types.ts` — the data model (`UserRole`, `User`, `Session`, `TreatmentType`);
* `src/services/dbService.ts` — the Local Store (`login`, `registerUser`,
  `addSession`, `getSessions`, and the constructor's load-or-seed logic);
* `src/components/SignaturePad.tsx` — the signature capture state machine;
* `src/components/SessionForm.tsx` — the session-entry form's
  treatment-type / duration state machine;
* `src/services` text-summary generator (`generatePayrollAnalysis`).

JavaScript strings are modelled as Lean `String`s; the only string
operation the store uses is `toLowerCase`, modelled by `jsToLowerCase`
(ASCII case folding, which agrees with JavaScript on the ASCII range the
store's data lives in).  JavaScript numbers that hold durations are
modelled as `Nat`.  Platform builtins (`JSON.parse`, `JSON.stringify`,
`canvas.toDataURL`, `Math.random` id synthesis, the Gemini API call) are
modelled explicitly where they matter and taken as parameters where only
their opacity matters; each such model carries a doc comment.
-/

namespace PhysioTrack

/-- Model of JavaScript's `String.prototype.toLowerCase` on the ASCII
range: upper-case ASCII letters are mapped to lower case, every other
character is left unchanged. -/
def jsLowerChar (c : Char) : Char :=
  if 'A' ≤ c ∧ c ≤ 'Z' then Char.ofNat (c.toNat + 32) else c

/-- `s.toLowerCase()` from `dbService.ts`, character by character. -/
def jsToLowerCase (s : String) : String :=
  String.mk (s.data.map jsLowerChar)

/-! ## Data model (`src/types.ts`) -/

/-- `export type UserRole = 'admin' | 'therapist'` -/
inductive UserRole where
  | admin
  | therapist
deriving DecidableEq, Repr

/-- `export interface User` — the credential-free account record. -/
structure User where
  id : String
  username : String
  name : String
  role : UserRole
deriving DecidableEq, Repr

/-- `export enum TreatmentType` -/
inductive TreatmentType where
  | physiotherapy
  | sportsMassage
deriving DecidableEq, Repr

/-- The literal string value of each `TreatmentType` enum member. -/
def TreatmentType.val : TreatmentType → String
  | .physiotherapy => "Physiotherapy"
  | .sportsMassage => "Sports Massage"

/-- `export interface Session` from `src/types.ts`.  `durationMinutes` is a
JavaScript number holding a whole number of minutes, modelled as `Nat`. -/
structure Session where
  id : String
  therapistId : String
  therapistName : String
  patientName : String
  treatmentType : TreatmentType
  durationMinutes : Nat
  timestamp : String
  signatureDataUrl : String
  notes : Option String := none
deriving DecidableEq, Repr

/-! ## Local Store (`src/services/dbService.ts`) -/

/-- `interface StoredUser extends User { passwordHash: string }` -/
structure StoredUser where
  id : String
  username : String
  name : String
  role : UserRole
  passwordHash : String
deriving DecidableEq, Repr

/-- `const { passwordHash, ...safeUser } = user` — the credential-stripping
rest-spread used by `login` (and `getAllTherapists`). -/
def StoredUser.strip (u : StoredUser) : User :=
  { id := u.id, username := u.username, name := u.name, role := u.role }

/-- `interface DatabaseSchema { users: StoredUser[]; sessions: Session[] }` -/
structure DatabaseSchema where
  users : List StoredUser
  sessions : List Session
deriving DecidableEq, Repr

/-- `const INITIAL_USERS` — the three seed accounts. -/
def INITIAL_USERS : List StoredUser :=
  [ { id := "admin-1", username := "admin", name := "Clinic Manager",
      role := .admin, passwordHash := "physio123" },
    { id := "user-1", username := "jane", name := "Jane Doe",
      role := .therapist, passwordHash := "password" },
    { id := "user-2", username := "mark", name := "Mark Smith",
      role := .therapist, passwordHash := "password" } ]

/-- `const INITIAL_DB` — seed accounts, empty session list. -/
def INITIAL_DB : DatabaseSchema :=
  { users := INITIAL_USERS, sessions := [] }

/-- `DBService.login(username, password)`:
find the first user whose username matches case-insensitively, then
compare that user's `passwordHash` to the supplied password by exact
string equality; on success return the user with the credential
stripped, otherwise `null`. -/
def login (db : DatabaseSchema) (username passwd : String) : Option User :=
  match db.users.find? (fun u => jsToLowerCase u.username = jsToLowerCase username) with
  | some u => if u.passwordHash = passwd then some u.strip else none
  | none => none

/-- The result record of `registerUser`. -/
structure RegisterResult where
  success : Bool
  message : String
deriving DecidableEq, Repr

/-- `DBService.registerUser(name, username, password, role)`.
The opaque id JavaScript synthesizes from `Math.random().toString(36)`
is passed in as `newId` (the shallow embedding of the non-deterministic
generator).  Returns the updated schema together with the result record;
on a duplicate username the schema is returned unchanged. -/
def registerUser (db : DatabaseSchema) (name username passwd : String)
    (role : UserRole) (newId : String) : DatabaseSchema × RegisterResult :=
  if db.users.any (fun u => jsToLowerCase u.username = jsToLowerCase username) then
    (db, { success := false, message := "Username already taken." })
  else
    let newUser : StoredUser :=
      { id := newId, name := name, username := username,
        passwordHash := passwd, role := role }
    ({ db with users := db.users ++ [newUser] },
     { success := true, message := "Account created successfully." })

/-- `DBService.addSession(session)` — `this.db.sessions.unshift(session)`:
insert at the front, then persist. -/
def addSession (db : DatabaseSchema) (s : Session) : DatabaseSchema :=
  { db with sessions := s :: db.sessions }

/-- `DBService.getSessions(userId, role)` — the `role` parameter is a plain
string in the source and is compared to the literal `'admin'`. -/
def getSessions (db : DatabaseSchema) (userId role : String) : List Session :=
  if role = "admin" then db.sessions
  else db.sessions.filter (fun s => s.therapistId = userId)

/-! ## Signature Capture Widget (`src/components/SignaturePad.tsx`)

The component's observable state is the two React state cells
(`isDrawing`, `hasSignature`) plus the canvas raster, modelled as the
list of stroked segments, and the current path position (the last
`moveTo`/`lineTo` coordinate).  The two callbacks are modelled as event
logs: `emitted` records every `onEnd` argument in order, `clearedCount`
counts `onClear` invocations.  The canvas element and its 2d context are
taken as present (the component renders the canvas unconditionally and
attaches the ref before any handler can fire). -/

/-- A surface-local coordinate, as produced by `getCoordinates`. -/
structure Point where
  offsetX : Int
  offsetY : Int
deriving DecidableEq, Repr

/-- Model of `canvas.toDataURL()`: a deterministic image data URI encoding
of the raster content (here, of the stroked segments). -/
def dataURL (segments : List (Point × Point)) : String :=
  "data:image/png;base64," ++
    String.intercalate ";"
      (segments.map fun s =>
        toString s.1.offsetX ++ "," ++ toString s.1.offsetY ++ "-" ++
        toString s.2.offsetX ++ "," ++ toString s.2.offsetY)

/-- The widget's state together with its observable callback history. -/
structure PadState where
  isDrawing : Bool
  hasSignature : Bool
  /-- last path coordinate (`ctx.moveTo` / `ctx.lineTo` position) -/
  current : Option Point
  /-- stroked raster content -/
  segments : List (Point × Point)
  /-- every argument passed to the `onEnd` callback, oldest first -/
  emitted : List (Option String)
  /-- number of `onClear` invocations -/
  clearedCount : Nat
deriving DecidableEq, Repr

/-- The initial widget state: idle, blank surface, no callbacks fired. -/
def initPad : PadState :=
  { isDrawing := false, hasSignature := false, current := none,
    segments := [], emitted := [], clearedCount := 0 }

/-- The events the widget handles: `down` is `onMouseDown`/`onTouchStart`
(`startDrawing`), `move` is `onMouseMove`/`onTouchMove` (`draw`), `up` is
`onMouseUp`/`onMouseLeave`/`onTouchEnd` (`endDrawing`), and `clear` is the
clear-button click (`clearCanvas`). -/
inductive PadEvent where
  | down (p : Point)
  | move (p : Point)
  | up
  | clear
deriving DecidableEq, Repr

/-- `startDrawing`: set `isDrawing`, `ctx.beginPath()`, `ctx.moveTo`. -/
def startDrawing (st : PadState) (p : Point) : PadState :=
  { st with isDrawing := true, current := some p }

/-- `draw`: a no-op unless a stroke is in progress; otherwise
`ctx.lineTo` + `ctx.stroke()` (adding a segment from the current path
position) and `setHasSignature(true)` if not already set.  A `lineTo` on
an empty path behaves like `moveTo`. -/
def draw (st : PadState) (p : Point) : PadState :=
  if st.isDrawing then
    match st.current with
    | some c =>
        { st with segments := st.segments ++ [(c, p)], current := some p,
                  hasSignature := true }
    | none => { st with current := some p, hasSignature := true }
  else st

/-- `endDrawing`: a no-op unless a stroke is in progress; otherwise leave
the stroke, and emit `canvas.toDataURL()` to `onEnd` only when
`hasSignature` is set. -/
def endDrawing (st : PadState) : PadState :=
  if st.isDrawing then
    { st with isDrawing := false,
              emitted := if st.hasSignature
                then st.emitted ++ [some (dataURL st.segments)]
                else st.emitted }
  else st

/-- `clearCanvas`: `ctx.clearRect` over the whole surface, reset
`hasSignature`, pass `null` to `onEnd`, and invoke `onClear`. -/
def clearCanvas (st : PadState) : PadState :=
  { st with segments := [], hasSignature := false,
            emitted := st.emitted ++ [none],
            clearedCount := st.clearedCount + 1 }

/-- One event step of the widget. -/
def padStep (st : PadState) : PadEvent → PadState
  | .down p => startDrawing st p
  | .move p => draw st p
  | .up => endDrawing st
  | .clear => clearCanvas st

/-- Run a sequence of events from a state. -/
def padRun (st : PadState) (es : List PadEvent) : PadState :=
  es.foldl padStep st

/-- A stroke: pointer-down at `p`, the given move events, then an ending
event (pointer-up, pointer-leave or touch-end). -/
def stroke (p : Point) (moves : List Point) : List PadEvent :=
  PadEvent.down p :: moves.map PadEvent.move ++ [PadEvent.up]

/-! ## Session-entry form (`src/components/SessionForm.tsx`)

The form state the duration constraint depends on is the pair
(`treatmentType`, `duration`).  Its two inputs are the treatment-type
toggle (`handleTypeChange`) and the duration `<select>`.  The select is
`disabled` while the treatment type is physiotherapy, so it fires no
change event then; while the type is sports massage its rendered options
are exactly 40, 45 and 60, so a change event can only carry one of those
values.  Events outside this interface are modelled as no-ops (the DOM
cannot deliver them). -/

/-- The duration-relevant form state. -/
structure FormState where
  treatmentType : TreatmentType
  duration : Nat
deriving DecidableEq, Repr

/-- `useState` initial values: sports massage, 60 minutes. -/
def initFormState : FormState :=
  { treatmentType := .sportsMassage, duration := 60 }

/-- `handleTypeChange`: physiotherapy pins the duration to 45, massage
resets it to the default 60. -/
def handleTypeChange (_st : FormState) (t : TreatmentType) : FormState :=
  { treatmentType := t, duration := if t = .physiotherapy then 45 else 60 }

/-- The `<option>` values the duration select renders for each type. -/
def durationOptions : TreatmentType → List Nat
  | .physiotherapy => [45]
  | .sportsMassage => [40, 45, 60]

/-- The form's input events. -/
inductive FormEvent where
  | typeChange (t : TreatmentType)
  | durationSelect (d : Nat)
deriving DecidableEq, Repr

/-- One event step of the form.  A `durationSelect` is only deliverable
while the select is enabled (sports massage) and only with a rendered
option value; anything else leaves the state unchanged. -/
def formStep (st : FormState) : FormEvent → FormState
  | .typeChange t => handleTypeChange st t
  | .durationSelect d =>
      if st.treatmentType = .sportsMassage ∧ d ∈ durationOptions st.treatmentType
      then { st with duration := d }
      else st

/-- Run a sequence of form events from the initial state. -/
def formRun (es : List FormEvent) : FormState :=
  es.foldl formStep initFormState

/-- `handleSubmit`'s `newSession` record, built from the form state (the
synthesized id, the timestamp and the captured signature are passed in). -/
def mkSession (st : FormState) (currentUserId currentUserName : String)
    (newId patientName timestamp signature : String) : Session :=
  { id := newId, therapistId := currentUserId, therapistName := currentUserName,
    patientName := patientName, treatmentType := st.treatmentType,
    durationMinutes := st.duration, timestamp := timestamp,
    signatureDataUrl := signature }

/-! ## JSON and the store constructor (`DBService.constructor`)

The constructor reads the persisted blob with
`localStorage.getItem(DB_KEY)` and, when a non-empty string is present,
runs it through the platform builtin `JSON.parse` with **no**
surrounding `try`/`catch`; an unparseable payload therefore throws.
`JSON.parse` and `JSON.stringify` are modelled below for the value
shapes this store persists (null, booleans, integer numerals, strings
with the common single-character escapes, arrays, objects); a payload
outside that fragment is rejected by the model just as a malformed one
is. -/

/-- A parsed JSON value. -/
inductive Json where
  | null
  | bool (b : Bool)
  | num (n : Int)
  | str (s : String)
  | arr (elems : List Json)
  | obj (fields : List (String × Json))

/-- The characters `JSON.parse` treats as insignificant whitespace. -/
def jsonWs (c : Char) : Bool :=
  c = ' ' || c = '\n' || c = '\t' || c = '\r'

/-- Drop leading insignificant whitespace. -/
def trimWs (cs : List Char) : List Char :=
  cs.dropWhile jsonWs

/-- Consume the remaining characters of an expected keyword. -/
def expectLit : List Char → List Char → Option (List Char)
  | [], cs => some cs
  | _ :: _, [] => none
  | l :: ls, c :: cs => if c = l then expectLit ls cs else none

/-- The single-character escapes accepted inside a string literal, paired
with the characters they denote. -/
def escapeTable : List (Char × Char) :=
  [('"', '"'), ('\\', '\\'), ('/', '/'), ('n', '\n'), ('t', '\t'),
   ('r', '\r'), ('b', Char.ofNat 8), ('f', Char.ofNat 12)]

/-- Read a string-literal body up to its closing quote, decoding escapes;
fails on an unterminated literal or an unknown escape. -/
def scanString : List Char → Option (List Char × List Char)
  | [] => none
  | c :: rest =>
      if c = '"' then some ([], rest)
      else if c = '\\' then
        match rest with
        | [] => none
        | e :: rest2 =>
            match escapeTable.lookup e, scanString rest2 with
            | some ch, some (body, rem) => some (ch :: body, rem)
            | _, _ => none
      else
        match scanString rest with
        | some (body, rem) => some (c :: body, rem)
        | none => none

/-- The numeric value of a decimal digit character. -/
def digitVal (c : Char) : Nat := c.toNat - 48

/-- Read a non-empty run of decimal digits as a natural number. -/
def readNat (cs : List Char) : Option (Nat × List Char) :=
  let ds := cs.takeWhile Char.isDigit
  if ds.isEmpty then none
  else some (ds.foldl (fun acc c => 10 * acc + digitVal c) 0,
             cs.dropWhile Char.isDigit)

mutual

/-- Parse one JSON value; `fuel` bounds the recursion depth. -/
def parseValue : Nat → List Char → Option (Json × List Char)
  | 0, _ => none
  | fuel + 1, input =>
      match trimWs input with
      | [] => none
      | c :: cs =>
          if c = 'n' then
            (expectLit ['u', 'l', 'l'] cs).map (fun r => (Json.null, r))
          else if c = 't' then
            (expectLit ['r', 'u', 'e'] cs).map (fun r => (Json.bool true, r))
          else if c = 'f' then
            (expectLit ['a', 'l', 's', 'e'] cs).map (fun r => (Json.bool false, r))
          else if c = '"' then
            (scanString cs).map (fun p => (Json.str (String.mk p.1), p.2))
          else if c = '-' then
            (readNat cs).map (fun p => (Json.num (-(p.1 : Int)), p.2))
          else if c.isDigit then
            (readNat (c :: cs)).map (fun p => (Json.num (p.1 : Int), p.2))
          else if c = '\x5b' then
            match trimWs cs with
            | '\x5d' :: rem => some (Json.arr [], rem)
            | other => (parseElems fuel other).map (fun p => (Json.arr p.1, p.2))
          else if c = '\x7b' then
            match trimWs cs with
            | '\x7d' :: rem => some (Json.obj [], rem)
            | other => (parseFields fuel other).map (fun p => (Json.obj p.1, p.2))
          else none

/-- One or more comma-separated values, ending at the closing bracket. -/
def parseElems : Nat → List Char → Option (List Json × List Char)
  | 0, _ => none
  | fuel + 1, input => do
      let (v, rest) ← parseValue fuel input
      match trimWs rest with
      | ',' :: more => do
          let (vs, rem) ← parseElems fuel more
          pure (v :: vs, rem)
      | '\x5d' :: rem => pure ([v], rem)
      | _ => none

/-- One or more comma-separated string-keyed fields, ending at the
closing brace. -/
def parseFields : Nat → List Char → Option (List (String × Json) × List Char)
  | 0, _ => none
  | fuel + 1, input =>
      match trimWs input with
      | '"' :: afterQuote => do
          let (key, r1) ← scanString afterQuote
          match trimWs r1 with
          | ':' :: r2 => do
              let (v, r3) ← parseValue fuel r2
              match trimWs r3 with
              | ',' :: r4 => do
                  let (fs, rem) ← parseFields fuel r4
                  pure ((String.mk key, v) :: fs, rem)
              | '\x7d' :: rem => pure ([(String.mk key, v)], rem)
              | _ => none
          | _ => none
      | _ => none

end

/-- Model of `JSON.parse`: parse one value, allow only trailing
whitespace after it, and report any failure as the thrown
`SyntaxError`. -/
def jsonParse (s : String) : Except String Json :=
  match parseValue (s.length + 1) s.data with
  | some (j, rest) =>
      if trimWs rest = [] then .ok j else .error "SyntaxError"
  | none => .error "SyntaxError"

/-- JSON string-literal escaping, as `JSON.stringify` performs it for the
characters this store's data can contain. -/
def escapeChar (c : Char) : String :=
  if c = '"' then "\\\""
  else if c = '\\' then "\\\\"
  else if c = '\n' then "\\n"
  else if c = '\t' then "\\t"
  else if c = '\r' then "\\r"
  else String.singleton c

/-- A JSON string literal for `s`. -/
def quoteStr (s : String) : String :=
  "\"" ++ String.join (s.data.map escapeChar) ++ "\""

mutual

/-- Model of `JSON.stringify` (no indentation, insertion field order). -/
def stringifyJson : Json → String
  | .null => "null"
  | .bool b => if b then "true" else "false"
  | .num n => toString n
  | .str s => quoteStr s
  | .arr xs => "\x5b" ++ stringifyArr xs ++ "\x5d"
  | .obj fs => "\x7b" ++ stringifyObj fs ++ "\x7d"

/-- Comma-separated serialization of array elements. -/
def stringifyArr : List Json → String
  | [] => ""
  | x :: xs =>
      stringifyJson x ++ (if xs.isEmpty then "" else ",") ++ stringifyArr xs

/-- Comma-separated serialization of object fields. -/
def stringifyObj : List (String × Json) → String
  | [] => ""
  | kv :: fs =>
      quoteStr kv.1 ++ ":" ++ stringifyJson kv.2 ++
        (if fs.isEmpty then "" else ",") ++ stringifyObj fs

end

/-- The string value of a `UserRole`. -/
def UserRole.val : UserRole → String
  | .admin => "admin"
  | .therapist => "therapist"

/-- The JSON object `JSON.stringify` produces for a `StoredUser`
(insertion field order of the object literals in `dbService.ts`). -/
def userToJson (u : StoredUser) : Json :=
  .obj [("id", .str u.id), ("username", .str u.username),
        ("name", .str u.name), ("role", .str u.role.val),
        ("passwordHash", .str u.passwordHash)]

/-- The JSON object for a `Session` (field order of the `newSession`
literal in `SessionForm.tsx`; an undefined `notes` field is omitted by
`JSON.stringify`). -/
def sessionToJson (s : Session) : Json :=
  .obj ([("id", .str s.id), ("therapistId", .str s.therapistId),
         ("therapistName", .str s.therapistName),
         ("patientName", .str s.patientName),
         ("treatmentType", .str s.treatmentType.val),
         ("durationMinutes", .num (s.durationMinutes : Int)),
         ("timestamp", .str s.timestamp),
         ("signatureDataUrl", .str s.signatureDataUrl)] ++
        (match s.notes with
         | some n => [("notes", Json.str n)]
         | none => []))

/-- The JSON document for a whole `DatabaseSchema`. -/
def dbToJson (db : DatabaseSchema) : Json :=
  .obj [("users", .arr (db.users.map userToJson)),
        ("sessions", .arr (db.sessions.map sessionToJson))]

/-- `const DB_KEY = 'physiotrack_db_v3'` — the version tag lives in the
storage key name. -/
def DB_KEY : String := "physiotrack_db_v3"

/-- `localStorage`, modelled as an association list from keys to the
stored strings; `getItem` is `lookup`, returning `null` (`none`) for an
absent key. -/
abbrev Storage : Type := List (String × String)

/-- `localStorage.setItem(key, value)`. -/
def setItem (st : Storage) (key value : String) : Storage :=
  (key, value) :: (st : List (String × String)).filter (fun kv => kv.1 ≠ key)

/-- `DBService.save()`: serialize the current schema and write it under
`DB_KEY`. -/
def save (st : Storage) (db : DatabaseSchema) : Storage :=
  setItem st DB_KEY (stringifyJson (dbToJson db))

/-- What `this.db` holds after the constructor ran: either the seed data
(with `save()` having been called), or whatever value `JSON.parse`
produced — installed verbatim, with no shape or version validation. -/
inductive InitOutcome where
  | seeded
  | loaded (j : Json)

/-- `DBService.constructor`: read `DB_KEY`; a missing entry — and, by
JavaScript truthiness of `if (stored)`, an empty string — takes the seed
branch, which persists `INITIAL_DB` immediately; any other string is fed
to `JSON.parse`, whose `SyntaxError` on malformed input propagates out of
the constructor uncaught.  Returns the outcome and the storage as left
behind. -/
def dbInit (storage : Storage) : Except String (InitOutcome × Storage) :=
  match (storage : List (String × String)).lookup DB_KEY with
  | none => .ok (.seeded, save storage INITIAL_DB)
  | some s =>
      if s = "" then .ok (.seeded, save storage INITIAL_DB)
      else
        match jsonParse s with
        | .ok j => .ok (.loaded j, storage)
        | .error e => .error e

/-! ## Text Summary Generator (`generatePayrollAnalysis`)

The external pieces are parameters of the model: `formatDate` stands for
the locale-dependent `new Date(ts).toLocaleDateString()`, and `api`
stands for `ai.models.generateContent`, mapping the prompt to either a
thrown error or a response whose `text` field may be absent.  The second
component of the result records whether the external call was made. -/

/-- The per-session line of the prompt's data block. -/
def sessionLine (formatDate : String → String) (s : Session) : String :=
  "- Date: " ++ formatDate s.timestamp ++ ", Patient: " ++ s.patientName ++
  ", Type: " ++ s.treatmentType.val ++ ", Duration: " ++
  toString s.durationMinutes ++ " mins"

/-- `sessionSummary`: the per-session lines joined by newlines. -/
def sessionSummary (formatDate : String → String) (sessions : List Session) : String :=
  String.intercalate "\n" (sessions.map (sessionLine formatDate))

/-- The prompt template literal sent to the text-generation API. -/
def payrollPrompt (formatDate : String → String) (sessions : List Session)
    (monthName : String) : String :=
  "\n    You are a payroll assistant for a freelance physiotherapy clinic.\n" ++
  "    Analyze the following list of completed treatment sessions for the month of " ++
  monthName ++ ".\n    \n    Data:\n    " ++
  sessionSummary formatDate sessions ++
  "\n    \n    Please provide a professional, friendly, and concise executive summary (in Markdown) that the employer can use for payroll processing.\n" ++
  "    Include:\n    1. A brief greeting.\n" ++
  "    2. A summary of the total workload (highlighting the mix between Physio vs Massage).\n" ++
  "    3. Any notable observations (e.g. \"High volume of sports massage this month\").\n" ++
  "    4. A generated \"Invoice Description\" text snippet that the freelancer could paste into their invoice.\n" ++
  "    \n    Do not output the raw data list again. Focus on the insights and summary.\n  "

/-- `generatePayrollAnalysis(sessions, monthName)`: an empty session list
returns the fixed fallback without touching the API; otherwise the API is
called inside `try`/`catch` — a thrown error becomes the fixed error
string, a response with an absent or empty `text` becomes
`"Could not generate analysis."` (the `||` default), and any other
response text is returned as is.  The `Bool` records whether the API was
called. -/
def generatePayrollAnalysis (api : String → Except String (Option String))
    (formatDate : String → String) (sessions : List Session)
    (monthName : String) : String × Bool :=
  if sessions.isEmpty then
    ("No sessions found for this period.", false)
  else
    match api (payrollPrompt formatDate sessions monthName) with
    | .ok t =>
        let txt := t.getD ""
        (if txt = "" then "Could not generate analysis." else txt, true)
    | .error _ =>
        ("Error generating AI analysis. Please check your API key and connection.", true)

/-! ## Shared witnesses and helper lemmas -/

/-- A concrete session record used to instantiate witness theorems. -/
def demoSession : Session :=
  { id := "s1", therapistId := "user-1", therapistName := "Jane Doe",
    patientName := "Pat", treatmentType := .sportsMassage,
    durationMinutes := 60, timestamp := "2026-01-01T00:00:00.000Z",
    signatureDataUrl := "data:image/png;base64,AAA" }

/-- Under the store invariant that usernames are pairwise distinct after
case folding, the case-insensitive lookup used by `login` finds exactly
the stored account whose username case-folds to the query. -/
theorem find_user_eq (users : List StoredUser) (u : StoredUser) (query : String)
    (huniq : users.Pairwise
      (fun a b => jsToLowerCase a.username ≠ jsToLowerCase b.username))
    (hmem : u ∈ users)
    (hname : jsToLowerCase u.username = jsToLowerCase query) :
    users.find? (fun v => jsToLowerCase v.username = jsToLowerCase query) = some u := by
  induction users with
  | nil => cases hmem
  | cons a l ih =>
      rcases List.pairwise_cons.mp huniq with ⟨ha, hl⟩
      rcases List.mem_cons.mp hmem with rfl | hmem'
      · exact List.find?_cons_of_pos _ (by simpa using hname)
      · have hne : jsToLowerCase a.username ≠ jsToLowerCase query := by
          intro h
          exact ha u hmem' (h.trans hname.symm)
        rw [List.find?_cons_of_neg _ (by simpa using hne)]
        exact ih hl hmem'

/-- C1: for every stored account, under the store's case-insensitive
username-uniqueness invariant, `login` with a username matching the
stored one case-insensitively and the exact stored credential returns
the account with id, username, name and role intact and the credential
field stripped; any other credential — in particular one differing only
in letter case — is rejected with `none`. -/
theorem C1_authenticate (db : DatabaseSchema) (u : StoredUser) (query : String)
    (huniq : db.users.Pairwise
      (fun a b => jsToLowerCase a.username ≠ jsToLowerCase b.username))
    (hmem : u ∈ db.users)
    (hname : jsToLowerCase u.username = jsToLowerCase query) :
    login db query u.passwordHash =
      some { id := u.id, username := u.username, name := u.name, role := u.role } ∧
    ∀ cred, cred ≠ u.passwordHash → login db query cred = none := by
  have hfind := find_user_eq db.users u query huniq hmem hname
  constructor
  · rw [login, hfind]
    simp [StoredUser.strip]
  · intro cred hcred
    rw [login, hfind]
    simp [Ne.symm hcred]

/-- C1 witness: authenticating the seed administrator with the query
`"ADMIN"` and credential `"physio123"` succeeds and strips the
credential; the case-variant credential `"PHYSIO123"` is rejected. -/
theorem C1_authenticate_witness :
    login INITIAL_DB "ADMIN" "physio123" =
      some { id := "admin-1", username := "admin", name := "Clinic Manager",
             role := .admin } ∧
    login INITIAL_DB "ADMIN" "PHYSIO123" = none := by
  have h := C1_authenticate INITIAL_DB
    { id := "admin-1", username := "admin", name := "Clinic Manager",
      role := .admin, passwordHash := "physio123" }
    "ADMIN" (by decide) (by decide) (by decide)
  exact ⟨h.1, h.2 "PHYSIO123" (by decide)⟩

/-- C2: appending a session and immediately querying for its owner with
role `"therapist"` returns it as the first element; querying for any
other therapist id excludes it; querying with role `"admin"` (the
administrator role string) includes it regardless of the id supplied. -/
theorem C2_append_query (db : DatabaseSchema) (s : Session) :
    (getSessions (addSession db s) s.therapistId "therapist").head? = some s ∧
    (∀ otherId, otherId ≠ s.therapistId →
      s ∉ getSessions (addSession db s) otherId "therapist") ∧
    ∀ anyId, s ∈ getSessions (addSession db s) anyId "admin" := by
  refine ⟨?_, ?_, ?_⟩
  · show (List.filter (fun t => decide (t.therapistId = s.therapistId))
      (s :: db.sessions)).head? = some s
    simp
  · intro otherId hne hmem
    have hmem' : s ∈ List.filter (fun t => decide (t.therapistId = otherId))
        (s :: db.sessions) := hmem
    have := (List.mem_filter.mp hmem').2
    have heq : s.therapistId = otherId := by simpa using this
    exact hne heq.symm
  · intro anyId
    show s ∈ s :: db.sessions
    exact List.mem_cons_self s db.sessions

/-- C2 witness: the concrete session owned by `"user-1"` appended to the
seed store is first in the owner's query, absent from `"user-2"`'s query
and present in an administrator query. -/
theorem C2_append_query_witness :
    (getSessions (addSession INITIAL_DB demoSession) "user-1" "therapist").head? =
      some demoSession ∧
    demoSession ∉ getSessions (addSession INITIAL_DB demoSession) "user-2" "therapist" ∧
    demoSession ∈ getSessions (addSession INITIAL_DB demoSession) "any" "admin" := by
  have h := C2_append_query INITIAL_DB demoSession
  exact ⟨h.1, h.2.1 "user-2" (by decide), h.2.2 "any"⟩

/-- C5: registering a username that case-insensitively collides with an
existing account fails with `"Username already taken."` and leaves the
store unchanged; a fresh username appends a new account built from the
supplied fields and the synthesized id, and reports success. -/
theorem C5_register (db : DatabaseSchema) (name username passwd : String)
    (role : UserRole) (newId : String) :
    ((∃ u ∈ db.users, jsToLowerCase u.username = jsToLowerCase username) →
      registerUser db name username passwd role newId =
        (db, { success := false, message := "Username already taken." })) ∧
    ((∀ u ∈ db.users, jsToLowerCase u.username ≠ jsToLowerCase username) →
      registerUser db name username passwd role newId =
        ({ db with users := db.users ++
            [{ id := newId, name := name, username := username,
               passwordHash := passwd, role := role }] },
         { success := true, message := "Account created successfully." })) := by
  constructor
  · intro hex
    rw [registerUser, if_pos (by simpa using hex)]
  · intro hall
    rw [registerUser, if_neg (by simpa using hall)]

/-- C5 witness: registering `"JANE"` against the seed store (which holds
`"jane"`) fails and leaves the store unchanged; registering the fresh
username `"sam"` appends the new account and succeeds. -/
theorem C5_register_witness :
    registerUser INITIAL_DB "Sam" "JANE" "x" .therapist "id-sam" =
      (INITIAL_DB, { success := false, message := "Username already taken." }) ∧
    registerUser INITIAL_DB "Sam" "sam" "x" .therapist "id-sam" =
      ({ INITIAL_DB with users := INITIAL_DB.users ++
          [{ id := "id-sam", name := "Sam", username := "sam",
             passwordHash := "x", role := .therapist }] },
       { success := true, message := "Account created successfully." }) := by
  exact ⟨(C5_register INITIAL_DB "Sam" "JANE" "x" .therapist "id-sam").1 (by decide),
         (C5_register INITIAL_DB "Sam" "sam" "x" .therapist "id-sam").2 (by decide)⟩

/-- C7: a failing authentication with an unknown username and a failing
authentication with a known username but wrong credential both return
`none` — the two failure causes are observationally identical. -/
theorem C7_uniform_failure (db : DatabaseSchema) (u1 c1 u2 c2 : String)
    (hunknown : ∀ u ∈ db.users, ¬ jsToLowerCase u.username = jsToLowerCase u1)
    (v : StoredUser)
    (hknown : db.users.find?
      (fun u => jsToLowerCase u.username = jsToLowerCase u2) = some v)
    (hwrong : v.passwordHash ≠ c2) :
    login db u1 c1 = none ∧ login db u2 c2 = none ∧
    login db u1 c1 = login db u2 c2 := by
  have h1 : login db u1 c1 = none := by
    rw [login, List.find?_eq_none.mpr (by simpa using hunknown)]
  have h2 : login db u2 c2 = none := by
    rw [login, hknown]
    simp [hwrong]
  exact ⟨h1, h2, h1.trans h2.symm⟩

/-- C7 witness: against the seed store, the unknown username
`"nobody"` and the known username `"admin"` with the wrong credential
`"wrong"` both yield `none`. -/
theorem C7_uniform_failure_witness :
    login INITIAL_DB "nobody" "pw" = none ∧
    login INITIAL_DB "admin" "wrong" = none ∧
    login INITIAL_DB "nobody" "pw" = login INITIAL_DB "admin" "wrong" := by
  exact C7_uniform_failure INITIAL_DB "nobody" "pw" "admin" "wrong"
    (by decide)
    { id := "admin-1", username := "admin", name := "Clinic Manager",
      role := .admin, passwordHash := "physio123" }
    (by decide) (by decide)

/-- C10: the store's `addSession` validates nothing — every session
value, whatever its `durationMinutes`, `patientName` or
`signatureDataUrl`, is prepended verbatim to the session sequence and is
the first element of the owner's subsequent query. -/
theorem C10_no_validation (db : DatabaseSchema) (s : Session) :
    (addSession db s).sessions = s :: db.sessions ∧
    (getSessions (addSession db s) s.therapistId "therapist").head? = some s := by
  refine ⟨rfl, ?_⟩
  show (List.filter (fun t => decide (t.therapistId = s.therapistId))
    (s :: db.sessions)).head? = some s
  simp

/-- One `draw` step from a mid-stroke state keeps the stroke in progress,
fires no callback, and sets "has ink". -/
theorem draw_simple (st : PadState) (hd : st.isDrawing = true) (p : Point) :
    (draw st p).isDrawing = true ∧ (draw st p).emitted = st.emitted ∧
    (draw st p).hasSignature = true := by
  cases h : st.current <;> simp [draw, hd, h]

/-- Running only move events from a mid-stroke state keeps the stroke in
progress, fires no callback, and leaves "has ink" set exactly when it
was already set or at least one move was processed. -/
theorem padRun_moves (moves : List Point) (st : PadState)
    (hd : st.isDrawing = true) :
    (padRun st (moves.map PadEvent.move)).isDrawing = true ∧
    (padRun st (moves.map PadEvent.move)).emitted = st.emitted ∧
    (padRun st (moves.map PadEvent.move)).hasSignature =
      (st.hasSignature || !moves.isEmpty) := by
  induction moves generalizing st with
  | nil =>
      refine ⟨hd, rfl, ?_⟩
      show st.hasSignature = (st.hasSignature || !List.isEmpty [])
      simp
  | cons p ps ih =>
      obtain ⟨hD1, hD2, hD3⟩ := draw_simple st hd p
      obtain ⟨hR1, hR2, hR3⟩ := ih (draw st p) hD1
      have hrun : padRun st ((p :: ps).map PadEvent.move) =
          padRun (draw st p) (ps.map PadEvent.move) := rfl
      rw [hrun]
      refine ⟨hR1, hR2.trans hD2, ?_⟩
      rw [hR3, hD3]
      simp

/-- C4 counterexample: after a completed inked stroke, a second stroke
with zero move events still emits a finalized artifact on its ending
event — the run `down, move, up, down, up` fires the "signature
finalized" callback twice, the second time for the move-free stroke. -/
theorem C4_per_stroke_counterexample :
    (padRun initPad
        (stroke ⟨1, 2⟩ [⟨3, 4⟩] ++ stroke ⟨5, 6⟩ [])).emitted =
      [some (dataURL [(⟨1, 2⟩, ⟨3, 4⟩)]),
       some (dataURL [(⟨1, 2⟩, ⟨3, 4⟩)])] := rfl

/-- C4 (amended): a stroke's ending event emits a finalized artifact
exactly when ink has been produced since the last clear: a stroke with at
least one move always emits a non-null image artifact, and a stroke with
zero moves emits nothing only when the "has ink" flag was still unset —
the flag is per-surface, not per-stroke, so a move-free stroke that
follows an earlier completed stroke does emit an artifact. -/
theorem C4_stroke_emission (st : PadState) (_hidle : st.isDrawing = false)
    (p : Point) (moves : List Point) :
    ((moves = [] ∧ st.hasSignature = false) →
      (padRun st (stroke p moves)).emitted = st.emitted) ∧
    ((moves ≠ [] ∨ st.hasSignature = true) →
      ∃ d, (padRun st (stroke p moves)).emitted = st.emitted ++ [some d]) := by
  have hsplit : padRun st (stroke p moves) =
      endDrawing (padRun (startDrawing st p) (moves.map PadEvent.move)) := by
    show List.foldl padStep (startDrawing st p)
      (moves.map PadEvent.move ++ [PadEvent.up]) = _
    rw [List.foldl_append]
    rfl
  obtain ⟨h1, h2, h3⟩ := padRun_moves moves (startDrawing st p) rfl
  have h2' : (padRun (startDrawing st p) (moves.map PadEvent.move)).emitted =
      st.emitted := h2
  have h3' : (padRun (startDrawing st p) (moves.map PadEvent.move)).hasSignature =
      (st.hasSignature || !moves.isEmpty) := h3
  constructor
  · rintro ⟨hmv, hsig⟩
    subst hmv
    simp only [List.map_nil] at h1 h2' h3'
    have hsigF : (padRun (startDrawing st p) []).hasSignature = false := by
      rw [h3', hsig]; simp
    rw [hsplit]
    simp [endDrawing, h1, hsigF, h2']
  · intro hor
    have hsigT : (padRun (startDrawing st p)
        (moves.map PadEvent.move)).hasSignature = true := by
      rw [h3']
      rcases hor with h | h
      · cases moves with
        | nil => exact absurd rfl h
        | cons q qs => simp
      · simp [h]
    refine ⟨dataURL (padRun (startDrawing st p)
      (moves.map PadEvent.move)).segments, ?_⟩
    rw [hsplit]
    simp [endDrawing, h1, hsigT, h2']

/-- C4 (amended) witness: from the blank initial state a move-free stroke
emits nothing, and a stroke with one move emits a non-null artifact. -/
theorem C4_stroke_emission_witness :
    (padRun initPad (stroke ⟨0, 0⟩ [])).emitted = initPad.emitted ∧
    ∃ d, (padRun initPad (stroke ⟨0, 0⟩ [⟨1, 1⟩])).emitted =
      initPad.emitted ++ [some d] := by
  exact ⟨(C4_stroke_emission initPad rfl ⟨0, 0⟩ []).1 ⟨rfl, rfl⟩,
         (C4_stroke_emission initPad rfl ⟨0, 0⟩ [⟨1, 1⟩]).2
           (Or.inl (by simp))⟩

/-- C8: every clear action wipes the raster surface, resets "has ink",
appends exactly one `null` emission to the "signature finalized" callback
log and bumps the "signature cleared" callback count by exactly one,
whatever the prior state. -/
theorem C8_clear_effects (st : PadState) :
    (padStep st .clear).segments = [] ∧
    (padStep st .clear).hasSignature = false ∧
    (padStep st .clear).emitted = st.emitted ++ [none] ∧
    (padStep st .clear).clearedCount = st.clearedCount + 1 :=
  ⟨rfl, rfl, rfl, rfl⟩

/-- The duration invariant the session form maintains. -/
def DurationOk (st : FormState) : Prop :=
  (st.treatmentType = .physiotherapy → st.duration = 45) ∧
  (st.treatmentType = .sportsMassage → st.duration ∈ [40, 45, 60])

/-- Every form event preserves the duration invariant. -/
theorem durationOk_step (st : FormState) (e : FormEvent) (h : DurationOk st) :
    DurationOk (formStep st e) := by
  cases e with
  | typeChange t =>
      cases t <;> simp [formStep, handleTypeChange, DurationOk]
  | durationSelect d =>
      rw [formStep]
      split
      · rename_i hc
        refine ⟨fun hphys => ?_, fun _ => ?_⟩
        · have : st.treatmentType = TreatmentType.physiotherapy := hphys
          rw [hc.1] at this
          cases this
        · have := hc.2
          rw [hc.1] at this
          simpa [durationOptions] using this
      · exact h

/-- The duration invariant holds in every reachable form state. -/
theorem durationOk_run (es : List FormEvent) : DurationOk (formRun es) := by
  suffices h : ∀ st, DurationOk st → DurationOk (es.foldl formStep st) from
    h initFormState (by simp [DurationOk, initFormState])
  induction es with
  | nil => exact fun st h => h
  | cons e es ih => exact fun st h => ih (formStep st e) (durationOk_step st e h)

/-- C6: in every form state reachable from the initial state by
treatment-type changes and duration selections, a submitted
physiotherapy session records duration exactly 45 and a submitted
sports-massage session records a duration among 40, 45 and 60. -/
theorem C6_duration_constraint (es : List FormEvent)
    (uid uname nid pn ts sig : String) :
    ((formRun es).treatmentType = .physiotherapy →
      (mkSession (formRun es) uid uname nid pn ts sig).durationMinutes = 45) ∧
    ((formRun es).treatmentType = .sportsMassage →
      (mkSession (formRun es) uid uname nid pn ts sig).durationMinutes ∈
        [40, 45, 60]) := by
  obtain ⟨ha, hb⟩ := durationOk_run es
  exact ⟨ha, hb⟩

/-- C6 witness: switching to physiotherapy yields a 45-minute session;
selecting 40 minutes under sports massage yields a session among the
allowed durations. -/
theorem C6_duration_constraint_witness :
    (mkSession (formRun [.typeChange .physiotherapy])
      "user-1" "Jane Doe" "s1" "Pat" "t0" "sig").durationMinutes = 45 ∧
    (mkSession (formRun [.durationSelect 40])
      "user-1" "Jane Doe" "s1" "Pat" "t0" "sig").durationMinutes ∈
      [40, 45, 60] := by
  exact ⟨(C6_duration_constraint [.typeChange .physiotherapy]
            "user-1" "Jane Doe" "s1" "Pat" "t0" "sig").1 (by decide),
         (C6_duration_constraint [.durationSelect 40]
            "user-1" "Jane Doe" "s1" "Pat" "t0" "sig").2 (by decide)⟩

/-- C3 counterexample: a malformed (unparseable) payload stored under the
current versioned key is not treated as absent — initialization throws
the parse error instead of replacing the store with seed data. -/
theorem C3_malformed_counterexample :
    dbInit [(DB_KEY, "not json")] = Except.error "SyntaxError" := rfl

/-- C3 (amended): an absent payload — including one stored only under a
different versioned key, and, by string truthiness, an empty payload —
is replaced with the seed data, which is persisted immediately with no
fault surfaced; but a malformed non-empty payload under the current key
is not recovered (the parse error propagates out of the constructor),
and a parseable payload is installed verbatim with no validation. -/
theorem C3_init_recovery (storage : Storage) :
    (storage.lookup DB_KEY = none →
      dbInit storage = .ok (.seeded, save storage INITIAL_DB)) ∧
    (storage.lookup DB_KEY = some "" →
      dbInit storage = .ok (.seeded, save storage INITIAL_DB)) ∧
    (∀ s e, storage.lookup DB_KEY = some s → s ≠ "" →
      jsonParse s = .error e → dbInit storage = .error e) ∧
    (∀ s j, storage.lookup DB_KEY = some s → s ≠ "" →
      jsonParse s = .ok j → dbInit storage = .ok (.loaded j, storage)) := by
  refine ⟨fun h => ?_, fun h => ?_,
          fun s e h hne hp => ?_, fun s j h hne hp => ?_⟩
  · simp [dbInit, h]
  · simp [dbInit, h]
  · simp [dbInit, h, hne, hp]
  · simp [dbInit, h, hne, hp]

/-- C3 (amended) witness: a payload under the previous versioned key is
invisible to the lookup, so the store is seeded and persisted; a
well-formed payload under the current key is installed verbatim; the
malformed payload `"not json"` makes initialization throw. -/
theorem C3_init_recovery_witness :
    dbInit [("physiotrack_db_v2", "old-payload")] =
      .ok (.seeded, save [("physiotrack_db_v2", "old-payload")] INITIAL_DB) ∧
    dbInit [(DB_KEY, "\x7b\x7d")] =
      .ok (.loaded (.obj []), [(DB_KEY, "\x7b\x7d")]) ∧
    dbInit [(DB_KEY, "not json")] = Except.error "SyntaxError" := by
  refine ⟨(C3_init_recovery [("physiotrack_db_v2", "old-payload")]).1 rfl,
          (C3_init_recovery [(DB_KEY, "\x7b\x7d")]).2.2.2
            "\x7b\x7d" (.obj []) rfl (by decide) rfl,
          (C3_init_recovery [(DB_KEY, "not json")]).2.2.1
            "not json" "SyntaxError" rfl (by decide) rfl⟩

/-- C9: the text-summary generator is a total function into strings — an
empty session list returns the fixed fallback without calling the
external API, and a failing external call (missing credential, network
failure) is caught and converted to the fixed error fallback. -/
theorem C9_fallbacks (api : String → Except String (Option String))
    (formatDate : String → String) (sessions : List Session)
    (monthName : String) :
    (sessions = [] →
      generatePayrollAnalysis api formatDate sessions monthName =
        ("No sessions found for this period.", false)) ∧
    (∀ e, sessions ≠ [] →
      api (payrollPrompt formatDate sessions monthName) = .error e →
      generatePayrollAnalysis api formatDate sessions monthName =
        ("Error generating AI analysis. Please check your API key and connection.",
         true)) := by
  constructor
  · intro h
    subst h
    rfl
  · intro e hne herr
    simp [generatePayrollAnalysis, hne, herr]

/-- C9 witness: with a throwing API model, the empty list returns the
empty-period fallback with no API call, and a one-session list returns
the fixed error fallback. -/
theorem C9_fallbacks_witness :
    generatePayrollAnalysis (fun _ => .error "network") (fun t => t)
      [] "January" = ("No sessions found for this period.", false) ∧
    generatePayrollAnalysis (fun _ => .error "network") (fun t => t)
      [demoSession] "January" =
      ("Error generating AI analysis. Please check your API key and connection.",
       true) := by
  exact ⟨(C9_fallbacks (fun _ => .error "network") (fun t => t) [] "January").1 rfl,
         (C9_fallbacks (fun _ => .error "network") (fun t => t)
            [demoSession] "January").2 "network" (List.cons_ne_nil _ _) rfl⟩

end PhysioTrack
